import Mathlib

/-!
Shallow embedding of the keyword-volume-checker service
(`src/app/services.py` together with the configuration constants of
`src/app/config.py`), and theorems settling the specification claims.

Modelling conventions:
* Python machine integers are `ℤ`; Python float arithmetic on the small
  values used by this program is modelled exactly with `ℚ`, and `int(x)`
  (truncation toward zero) is `truncQ`.
* `random.uniform(0.7, 1.4)` is modelled by an explicit jitter stream
  `jitters : ℕ → ℚ` carried in the environment, consumed via the counter
  `rng` in the state (one draw per `_fallback_volume_estimate` call).
* The SQLite store is a list of rows with the `UNIQUE(keyword, country,
  method)` upsert discipline of `INSERT OR REPLACE`; `datetime.now()` is an
  explicit integer time (in hours) passed to each public call, and the
  24-hour freshness cutoff of `_get_cached_volume` is the literal 24.
* Storage faults (unreadable / unwritable database) are the environment
  flags `readFails` / `writeFails`; the Python code has no try/except
  around the cache helpers, so in the embedding their `Except.error`
  propagates out of the orchestrator exactly as the SQLite exception does.
* The two network services are the environment fields `trendsResp` /
  `amazonResp`; `TrendsResp.fail` (resp. `none`) covers a network error,
  a non-200 status or a malformed payload, all of which reach the
  adapter's fallback the same way in the source.
-/

namespace KeywordVolume

/-- Model of `config.py`: `SUPPORTED_COUNTRIES = ["US", "UK", "CA", "SA"]`. -/
def SUPPORTED_COUNTRIES : List String := ["US", "UK", "CA", "SA"]

/-- Python `int(x)`: truncation of a rational toward zero. -/
def truncQ (q : ℚ) : ℤ := if 0 ≤ q then ⌊q⌋ else ⌈q⌉

/-- Helper for Python's substring test `needle in haystack`. -/
def strContainsAux (needle : List Char) : List Char → Bool
  | [] => needle.isEmpty
  | c :: rest => needle.isPrefixOf (c :: rest) || strContainsAux needle rest

/-- Python `needle in hay` on strings. -/
def strContains (hay needle : String) : Bool :=
  strContainsAux needle.toList hay.toList

/-- Python `s.lower()` (ASCII case folding, as used by this program). -/
def pyLower (s : String) : String :=
  ⟨s.toList.map Char.toLower⟩

/-- Python `s.strip()`: removes leading and trailing whitespace. -/
def pyStrip (s : String) : String :=
  ⟨((s.toList.dropWhile Char.isWhitespace).reverse.dropWhile Char.isWhitespace).reverse⟩

/-- One row of the `keyword_volumes` SQLite table. -/
structure CacheEntry where
  keyword : String
  country : String
  volume : ℤ
  method : String
  created_at : ℤ
deriving Repr, DecidableEq

/-- Result of the trend-service request in `_get_google_trends_volume`:
`fail` covers a raised network error, a non-200 status or a malformed
payload; `ok timeline` is the parsed `timelineData`, where an entry `none`
models a point whose `value[0]` is the empty string (filtered out). -/
inductive TrendsResp where
  | fail
  | ok (timeline : List (Option ℤ))

/-- External environment of one service instance: configuration flags,
the two remote services, storage health and the random stream. -/
structure Env where
  googleTrendsEnabled : Bool
  amazonAutocompleteEnabled : Bool
  trendsResp : TrendsResp
  amazonResp : Option (List String)
  readFails : Bool
  writeFails : Bool
  jitters : ℕ → ℚ

/-- Mutable state of the service: the SQLite store (list of rows under the
upsert discipline), whether the database file exists, and the position in
the random stream. -/
structure St where
  store : List CacheEntry
  dbExists : Bool
  rng : ℕ
deriving DecidableEq

/-- State right after `KeywordVolumeService.__init__` (which runs
`_init_database`): empty table, database file present. -/
def initSt : St := ⟨[], true, 0⟩

/-- Row selector of the `WHERE keyword = ? AND country = ? AND method = ?`
clause (the table key, unique by `INSERT OR REPLACE`). -/
def entryKeyMatches (kw country method : String) (e : CacheEntry) : Bool :=
  e.keyword == kw && e.country == country && e.method == method

/-- The `SELECT` of `_get_cached_volume`: the row for the key, provided
`created_at > now - 24h`; a stale row is masked, not deleted. -/
def lookupFresh (store : List CacheEntry) (now : ℤ) (kw country method : String) :
    Option ℤ :=
  match store.find? (entryKeyMatches kw country method) with
  | some e => if now - 24 < e.created_at then some e.volume else none
  | none => none

/-- Model of `_get_cached_volume`: reads the store; a storage fault raises (the
source has no try/except), modelled as `Except.error`. -/
def getCachedVolume (env : Env) (now : ℤ) (kw country method : String) (s : St) :
    Except Unit (Option ℤ) :=
  if env.readFails then .error () else .ok (lookupFresh s.store now kw country method)

/-- Model of `_cache_volume`: `INSERT OR REPLACE` of the row with
`created_at = now`; a storage fault raises. -/
def cacheVolume (env : Env) (now : ℤ) (kw country : String) (volume : ℤ)
    (method : String) (s : St) : Except Unit St :=
  if env.writeFails then .error ()
  else .ok { s with
    store := ⟨kw, country, volume, method, now⟩ ::
      s.store.filter (fun e => !(entryKeyMatches kw country method e)),
    dbExists := true }

/-- Model of `_fallback_volume_estimate`: base 1000, length factor, three
independent keyword-class multipliers, country multiplier, random jitter,
truncation, floor at 10.  (The `time.sleep` rate-limit delay has no
observable effect in the model.) -/
def fallbackVolumeEstimate (env : Env) (kw country : String) (s : St) : ℤ × St :=
  let base0 : ℚ := 1000
  let length_factor : ℚ := max (3/10) (1 - ((kw.length : ℚ) - 3) * (3/20))
  let base1 : ℚ :=
    if ["how", "what", "why", "when", "where"].any (fun w => strContains (pyLower kw) w)
    then base0 * (3/2) else base0
  let base2 : ℚ :=
    if ["best", "top", "review", "guide"].any (fun w => strContains (pyLower kw) w)
    then base1 * (13/10) else base1
  let base3 : ℚ :=
    if ["free", "cheap", "discount"].any (fun w => strContains (pyLower kw) w)
    then base2 * (6/5) else base2
  let country_multiplier : ℚ :=
    if country == "US" then 1
    else if country == "UK" then 2/5
    else if country == "CA" then 3/10
    else if country == "SA" then 1/5
    else 1
  let variation : ℚ := env.jitters s.rng
  let volume : ℤ := truncQ (base3 * length_factor * country_multiplier * variation)
  (max volume 10, { s with rng := s.rng + 1 })

/-- Model of `_get_google_trends_volume`: on a usable response with at least one
numeric sample, `int(mean(samples) * 1000)`; in every other case the
heuristic fallback. -/
def getGoogleTrendsVolume (env : Env) (kw country : String) (s : St) : ℤ × St :=
  match env.trendsResp with
  | .fail => fallbackVolumeEstimate env kw country s
  | .ok timeline =>
    let volumes : List ℤ := timeline.filterMap id
    if volumes.isEmpty then fallbackVolumeEstimate env kw country s
    else (truncQ (((volumes.sum : ℚ) / (volumes.length : ℚ)) * 1000), s)

/-- Model of `_get_amazon_autocomplete_volume`: scans the suggestions for the first
exact case-insensitive match of the keyword; at 0-based position `i` the
volume is `int(10000 * (10 - i) / 10)`; otherwise the heuristic fallback.
(The model carries the `value` field of each suggestion directly.) -/
def getAmazonAutocompleteVolume (env : Env) (kw country : String) (s : St) : ℤ × St :=
  match env.amazonResp with
  | none => fallbackVolumeEstimate env kw country s
  | some suggestions =>
    if suggestions.isEmpty then fallbackVolumeEstimate env kw country s
    else
      let i := suggestions.findIdx (fun sug => pyLower sug == pyLower kw)
      if i < suggestions.length then
        (truncQ (10000 * ((10 - (i : ℚ)) / 10)), s)
      else fallbackVolumeEstimate env kw country s

/-- The exceptions escaping `get_volume`: the two `ValueError`s of the
validation steps and a storage fault of the cache helpers. -/
inductive VolumeError where
  | unsupportedCountry (country : String)
  | unsupportedMethod (method : String)
  | storage
deriving Repr, DecidableEq

/-- Python `str(e)` for the exceptions of the model. -/
def errMsg : VolumeError → String
  | .unsupportedCountry c => "Unsupported country: " ++ c
  | .unsupportedMethod m => "Unsupported method: " ++ m
  | .storage => "database error"

/-- Model of `get_volume_google_trends`: cache read, immediate return on a hit,
otherwise compute via the trend adapter and write back. -/
def getVolumeGoogleTrends (env : Env) (now : ℤ) (kw country : String) (s : St) :
    Except VolumeError ℤ × St :=
  match getCachedVolume env now kw country "google_trends" s with
  | .error _ => (.error .storage, s)
  | .ok (some v) => (.ok v, s)
  | .ok none =>
    let p := getGoogleTrendsVolume env kw country s
    match cacheVolume env now kw country p.1 "google_trends" p.2 with
    | .error _ => (.error .storage, p.2)
    | .ok s2 => (.ok p.1, s2)

/-- Model of `get_volume_amazon_autocomplete`: cache read, immediate return on a
hit, otherwise compute via the autocomplete adapter and write back. -/
def getVolumeAmazonAutocomplete (env : Env) (now : ℤ) (kw country : String) (s : St) :
    Except VolumeError ℤ × St :=
  match getCachedVolume env now kw country "amazon_autocomplete" s with
  | .error _ => (.error .storage, s)
  | .ok (some v) => (.ok v, s)
  | .ok none =>
    let p := getAmazonAutocompleteVolume env kw country s
    match cacheVolume env now kw country p.1 "amazon_autocomplete" p.2 with
    | .error _ => (.error .storage, p.2)
    | .ok s2 => (.ok p.1, s2)

/-- Model of `get_volume_combined`: cache read; on a miss each enabled adapter is
called (the source wraps each call in try/except, but the adapters catch
everything internally, so each enabled source always contributes a value);
the truncated mean of the contributed values, or the heuristic fallback
when no source is enabled; write back. -/
def getVolumeCombined (env : Env) (now : ℤ) (kw country : String) (s : St) :
    Except VolumeError ℤ × St :=
  match getCachedVolume env now kw country "combined" s with
  | .error _ => (.error .storage, s)
  | .ok (some v) => (.ok v, s)
  | .ok none =>
    let r1 : List ℤ × St :=
      if env.googleTrendsEnabled then
        let p := getGoogleTrendsVolume env kw country s
        ([p.1], p.2)
      else ([], s)
    let r2 : List ℤ × St :=
      if env.amazonAutocompleteEnabled then
        let p := getAmazonAutocompleteVolume env kw country r1.2
        (r1.1 ++ [p.1], p.2)
      else r1
    let pv : ℤ × St :=
      if r2.1.isEmpty then fallbackVolumeEstimate env kw country r2.2
      else (truncQ ((r2.1.sum : ℚ) / (r2.1.length : ℚ)), r2.2)
    match cacheVolume env now kw country pv.1 "combined" pv.2 with
    | .error _ => (.error .storage, pv.2)
    | .ok s2 => (.ok pv.1, s2)

/-- Model of `KeywordVolumeService.get_volume`: country validation, then dispatch
on the method string; `fallback` calls the heuristic estimator directly. -/
def get_volume (env : Env) (now : ℤ) (kw country method : String) (s : St) :
    Except VolumeError ℤ × St :=
  if country ∉ SUPPORTED_COUNTRIES then (.error (.unsupportedCountry country), s)
  else if method = "google_trends" then getVolumeGoogleTrends env now kw country s
  else if method = "amazon_autocomplete" then getVolumeAmazonAutocomplete env now kw country s
  else if method = "combined" then getVolumeCombined env now kw country s
  else if method = "fallback" then
    let p := fallbackVolumeEstimate env kw country s
    (.ok p.1, p.2)
  else (.error (.unsupportedMethod method), s)

/-- Module-level `get_keyword_volume`, delegating to the service. -/
def get_keyword_volume (env : Env) (now : ℤ) (kw country method : String) (s : St) :
    Except VolumeError ℤ × St :=
  get_volume env now kw country method s

/-- One element of the list returned by `get_batch_keyword_volume`. -/
structure BatchEntry where
  keyword : String
  country : String
  volume : ℤ
  error : Option String
deriving Repr, DecidableEq

/-- Model of `get_batch_keyword_volume`: iterates the keywords in order, stripping
each; a raised error is recorded as volume 0 with the message, and the
remaining keywords are still processed. -/
def get_batch_keyword_volume (env : Env) (now : ℤ) (country method : String) :
    List String → St → List BatchEntry × St
  | [], s => ([], s)
  | kw :: rest, s =>
    match get_keyword_volume env now (pyStrip kw) country method s with
    | (.ok v, s1) =>
      let t := get_batch_keyword_volume env now country method rest s1
      (⟨pyStrip kw, country, v, none⟩ :: t.1, t.2)
    | (.error e, s1) =>
      let t := get_batch_keyword_volume env now country method rest s1
      (⟨pyStrip kw, country, 0, some (errMsg e)⟩ :: t.1, t.2)

/-- Module-level `clear_cache`: only when the database file exists is it
removed and the empty store re-initialized (returning `True`); otherwise
nothing happens and `False` is returned. -/
def clear_cache (s : St) : Bool × St :=
  if s.dbExists then (true, { s with store := [], dbExists := true })
  else (false, s)

/-- Decidable equality of orchestrator results, for concrete evaluation. -/
instance : DecidableEq (Except VolumeError ℤ) := fun a b =>
  match a, b with
  | .error x, .error y =>
    if h : x = y then .isTrue (by rw [h]) else .isFalse (fun hh => h (by cases hh; rfl))
  | .error _, .ok _ => .isFalse (fun hh => by cases hh)
  | .ok _, .error _ => .isFalse (fun hh => by cases hh)
  | .ok x, .ok y =>
    if h : x = y then .isTrue (by rw [h]) else .isFalse (fun hh => h (by cases hh; rfl))

/-- Baseline test environment: both sources enabled but failing, healthy
storage, constant jitter 1. -/
def envBase : Env :=
  { googleTrendsEnabled := true, amazonAutocompleteEnabled := true,
    trendsResp := .fail, amazonResp := none,
    readFails := false, writeFails := false, jitters := fun _ => 1 }

/-- Environment with an unreadable store. -/
def envReadFail : Env := { envBase with readFails := true }

/-- Environment with an unwritable store. -/
def envWriteFail : Env := { envBase with writeFails := true }

/-- Environment whose first two jitter draws are 0.7 and 1.3. -/
def envC4 : Env := { envBase with jitters := fun n => if n = 0 then 7/10 else 13/10 }

/-- Environment whose first jitter draw is 1 and later draws are 1.2. -/
def envC5 : Env := { envBase with jitters := fun n => if n = 0 then 1 else 6/5 }

/-- Environment whose trend service answers with samples [2, 2, 1]. -/
def envTrends221 : Env := { envBase with trendsResp := .ok [some 2, some 2, some 1] }

/-- Environment whose trend service answers with samples [1, 2, 3]. -/
def envTrends123 : Env := { envBase with trendsResp := .ok [some 1, some 2, some 3] }

/-- Environment whose autocomplete service suggests ["x", "b"]. -/
def envAmazonXB : Env := { envBase with amazonResp := some ["x", "b"] }

/-- State holding one fresh cached row for the key ("a", "US", "fallback"). -/
def stC2 : St := ⟨[⟨"a", "US", 99999, "fallback", 0⟩], true, 0⟩

section Lemmas

/-- After an upsert of the row `(kw, country, m, v, t)`, a lookup for the
same key at any time `t'` with `t' - 24 < t` yields `v`. -/
lemma lookupFresh_upsert (store : List CacheEntry) (t t' : ℤ) (kw country m : String)
    (v : ℤ) (h : t' - 24 < t) :
    lookupFresh (⟨kw, country, v, m, t⟩ ::
        store.filter (fun e => !(entryKeyMatches kw country m e))) t' kw country m =
      some v := by
  simp [lookupFresh, List.find?, entryKeyMatches, h]

/-- Country-validated dispatch of `get_volume` for `google_trends`. -/
lemma get_volume_gt_eq (env : Env) (t : ℤ) (kw country : String) (s : St)
    (hc : country ∈ SUPPORTED_COUNTRIES) :
    get_volume env t kw country "google_trends" s = getVolumeGoogleTrends env t kw country s := by
  simp only [get_volume]
  rw [if_neg (not_not_intro hc)]
  simp

/-- Country-validated dispatch of `get_volume` for `amazon_autocomplete`. -/
lemma get_volume_aa_eq (env : Env) (t : ℤ) (kw country : String) (s : St)
    (hc : country ∈ SUPPORTED_COUNTRIES) :
    get_volume env t kw country "amazon_autocomplete" s =
      getVolumeAmazonAutocomplete env t kw country s := by
  simp only [get_volume]
  rw [if_neg (not_not_intro hc)]
  simp

/-- Country-validated dispatch of `get_volume` for `combined`. -/
lemma get_volume_combined_eq (env : Env) (t : ℤ) (kw country : String) (s : St)
    (hc : country ∈ SUPPORTED_COUNTRIES) :
    get_volume env t kw country "combined" s = getVolumeCombined env t kw country s := by
  simp only [get_volume]
  rw [if_neg (not_not_intro hc)]
  simp

/-- Country-validated dispatch of `get_volume` for `fallback`. -/
lemma get_volume_fallback_eq (env : Env) (t : ℤ) (kw country : String) (s : St)
    (hc : country ∈ SUPPORTED_COUNTRIES) :
    get_volume env t kw country "fallback" s =
      (.ok (fallbackVolumeEstimate env kw country s).1,
        (fallbackVolumeEstimate env kw country s).2) := by
  simp only [get_volume]
  rw [if_neg (not_not_intro hc)]
  simp

/-- A fresh cache hit makes `get_volume_google_trends` return immediately. -/
lemma gt_hit (env : Env) (t : ℤ) (kw country : String) (s : St) (v : ℤ)
    (hr : env.readFails = false)
    (hhit : lookupFresh s.store t kw country "google_trends" = some v) :
    getVolumeGoogleTrends env t kw country s = (.ok v, s) := by
  simp [getVolumeGoogleTrends, getCachedVolume, hr, hhit]

/-- A fresh cache hit makes `get_volume_amazon_autocomplete` return immediately. -/
lemma aa_hit (env : Env) (t : ℤ) (kw country : String) (s : St) (v : ℤ)
    (hr : env.readFails = false)
    (hhit : lookupFresh s.store t kw country "amazon_autocomplete" = some v) :
    getVolumeAmazonAutocomplete env t kw country s = (.ok v, s) := by
  simp [getVolumeAmazonAutocomplete, getCachedVolume, hr, hhit]

/-- A fresh cache hit makes `get_volume_combined` return immediately. -/
lemma combined_hit (env : Env) (t : ℤ) (kw country : String) (s : St) (v : ℤ)
    (hr : env.readFails = false)
    (hhit : lookupFresh s.store t kw country "combined" = some v) :
    getVolumeCombined env t kw country s = (.ok v, s) := by
  simp [getVolumeCombined, getCachedVolume, hr, hhit]

/-- On a cache miss with healthy storage, `get_volume_google_trends`
computes a value, writes it back, and any later fresh lookup finds it. -/
lemma gt_miss (env : Env) (t : ℤ) (kw country : String) (s : St)
    (hr : env.readFails = false) (hw : env.writeFails = false)
    (hmiss : lookupFresh s.store t kw country "google_trends" = none) :
    ∃ v s1, getVolumeGoogleTrends env t kw country s = (.ok v, s1) ∧
      ∀ t', t' - 24 < t → lookupFresh s1.store t' kw country "google_trends" = some v := by
  have h1 : getCachedVolume env t kw country "google_trends" s = .ok none := by
    simp [getCachedVolume, hr, hmiss]
  simp only [getVolumeGoogleTrends, h1, cacheVolume, hw, Bool.false_eq_true, if_false]
  exact ⟨_, _, rfl, fun t' ht' => lookupFresh_upsert _ t t' kw country "google_trends" _ ht'⟩

/-- On a cache miss with healthy storage, `get_volume_amazon_autocomplete`
computes a value, writes it back, and any later fresh lookup finds it. -/
lemma aa_miss (env : Env) (t : ℤ) (kw country : String) (s : St)
    (hr : env.readFails = false) (hw : env.writeFails = false)
    (hmiss : lookupFresh s.store t kw country "amazon_autocomplete" = none) :
    ∃ v s1, getVolumeAmazonAutocomplete env t kw country s = (.ok v, s1) ∧
      ∀ t', t' - 24 < t → lookupFresh s1.store t' kw country "amazon_autocomplete" = some v := by
  have h1 : getCachedVolume env t kw country "amazon_autocomplete" s = .ok none := by
    simp [getCachedVolume, hr, hmiss]
  simp only [getVolumeAmazonAutocomplete, h1, cacheVolume, hw, Bool.false_eq_true, if_false]
  exact ⟨_, _, rfl, fun t' ht' => lookupFresh_upsert _ t t' kw country "amazon_autocomplete" _ ht'⟩

/-- On a cache miss with healthy storage, `get_volume_combined` computes a
value, writes it back, and any later fresh lookup finds it. -/
lemma combined_miss (env : Env) (t : ℤ) (kw country : String) (s : St)
    (hr : env.readFails = false) (hw : env.writeFails = false)
    (hmiss : lookupFresh s.store t kw country "combined" = none) :
    ∃ v s1, getVolumeCombined env t kw country s = (.ok v, s1) ∧
      ∀ t', t' - 24 < t → lookupFresh s1.store t' kw country "combined" = some v := by
  have h1 : getCachedVolume env t kw country "combined" s = .ok none := by
    simp [getCachedVolume, hr, hmiss]
  simp only [getVolumeCombined, h1, cacheVolume, hw, Bool.false_eq_true, if_false]
  exact ⟨_, _, rfl, fun t' ht' => lookupFresh_upsert _ t t' kw country "combined" _ ht'⟩

/-- With an unreadable store the SQLite error of the cache read propagates
out of `get_volume_google_trends`. -/
lemma gt_readFail (env : Env) (t : ℤ) (kw country : String) (s : St)
    (hr : env.readFails = true) :
    getVolumeGoogleTrends env t kw country s = (.error .storage, s) := by
  simp [getVolumeGoogleTrends, getCachedVolume, hr]

/-- With an unreadable store the SQLite error of the cache read propagates
out of `get_volume_amazon_autocomplete`. -/
lemma aa_readFail (env : Env) (t : ℤ) (kw country : String) (s : St)
    (hr : env.readFails = true) :
    getVolumeAmazonAutocomplete env t kw country s = (.error .storage, s) := by
  simp [getVolumeAmazonAutocomplete, getCachedVolume, hr]

/-- With an unreadable store the SQLite error of the cache read propagates
out of `get_volume_combined`. -/
lemma combined_readFail (env : Env) (t : ℤ) (kw country : String) (s : St)
    (hr : env.readFails = true) :
    getVolumeCombined env t kw country s = (.error .storage, s) := by
  simp [getVolumeCombined, getCachedVolume, hr]

/-- On a cache miss with an unwritable store, the SQLite error of the
write-back propagates out of `get_volume_google_trends`. -/
lemma gt_writeFail (env : Env) (t : ℤ) (kw country : String) (s : St)
    (hr : env.readFails = false) (hw : env.writeFails = true)
    (hmiss : lookupFresh s.store t kw country "google_trends" = none) :
    ∃ s1, getVolumeGoogleTrends env t kw country s = (.error .storage, s1) := by
  have h1 : getCachedVolume env t kw country "google_trends" s = .ok none := by
    simp [getCachedVolume, hr, hmiss]
  simp only [getVolumeGoogleTrends, h1, cacheVolume, hw, if_true]
  exact ⟨_, rfl⟩

/-- On a cache miss with an unwritable store, the SQLite error of the
write-back propagates out of `get_volume_amazon_autocomplete`. -/
lemma aa_writeFail (env : Env) (t : ℤ) (kw country : String) (s : St)
    (hr : env.readFails = false) (hw : env.writeFails = true)
    (hmiss : lookupFresh s.store t kw country "amazon_autocomplete" = none) :
    ∃ s1, getVolumeAmazonAutocomplete env t kw country s = (.error .storage, s1) := by
  have h1 : getCachedVolume env t kw country "amazon_autocomplete" s = .ok none := by
    simp [getCachedVolume, hr, hmiss]
  simp only [getVolumeAmazonAutocomplete, h1, cacheVolume, hw, if_true]
  exact ⟨_, rfl⟩

/-- On a cache miss with an unwritable store, the SQLite error of the
write-back propagates out of `get_volume_combined`. -/
lemma combined_writeFail (env : Env) (t : ℤ) (kw country : String) (s : St)
    (hr : env.readFails = false) (hw : env.writeFails = true)
    (hmiss : lookupFresh s.store t kw country "combined" = none) :
    ∃ s1, getVolumeCombined env t kw country s = (.error .storage, s1) := by
  have h1 : getCachedVolume env t kw country "combined" s = .ok none := by
    simp [getCachedVolume, hr, hmiss]
  simp only [getVolumeCombined, h1, cacheVolume, hw, if_true]
  exact ⟨_, rfl⟩

/-- Truncation toward zero is the identity on integers. -/
lemma truncQ_intCast (n : ℤ) : truncQ ((n : ℚ)) = n := by
  unfold truncQ
  split <;> simp

/-- Truncation of a rational that is exactly an integer. -/
lemma truncQ_eq_cast (q : ℚ) (n : ℤ) (h : q = (n : ℚ)) : truncQ q = n :=
  h ▸ truncQ_intCast n

/-- Truncation of a nonnegative rational, located between `n` and `n + 1`. -/
lemma truncQ_nonneg_eq (q : ℚ) (n : ℤ) (h0 : 0 ≤ q) (hl : (n : ℚ) ≤ q)
    (hu : q < n + 1) : truncQ q = n := by
  unfold truncQ
  rw [if_pos h0]
  exact Int.floor_eq_iff.mpr ⟨hl, hu⟩

/-- Closed form of the heuristic estimator for a US keyword containing none
of the special substrings. -/
lemma fallback_plain (env : Env) (kw : String) (s : St)
    (h1 : (["how", "what", "why", "when", "where"].any fun w => strContains (pyLower kw) w) = false)
    (h2 : (["best", "top", "review", "guide"].any fun w => strContains (pyLower kw) w) = false)
    (h3 : (["free", "cheap", "discount"].any fun w => strContains (pyLower kw) w) = false) :
    fallbackVolumeEstimate env kw "US" s =
      (max (truncQ (1000 * max (3/10) (1 - ((kw.length : ℚ) - 3) * (3/20)) * 1 *
        env.jitters s.rng)) 10,
       { s with rng := s.rng + 1 }) := by
  simp [fallbackVolumeEstimate, h1, h2, h3]

/-- Numeric instance of `fallback_plain`, with the length factor and the
truncation discharged separately. -/
lemma fallback_plain_val (env : Env) (kw : String) (s : St) (lf : ℚ) (n : ℤ)
    (h1 : (["how", "what", "why", "when", "where"].any fun w => strContains (pyLower kw) w) = false)
    (h2 : (["best", "top", "review", "guide"].any fun w => strContains (pyLower kw) w) = false)
    (h3 : (["free", "cheap", "discount"].any fun w => strContains (pyLower kw) w) = false)
    (hlf : max (3/10) (1 - ((kw.length : ℚ) - 3) * (3/20)) = lf)
    (hval : truncQ (1000 * lf * 1 * env.jitters s.rng) = n)
    (hn : 10 ≤ n) :
    fallbackVolumeEstimate env kw "US" s = (n, { s with rng := s.rng + 1 }) := by
  rw [fallback_plain env kw s h1 h2 h3, hlf, hval, max_eq_left hn]

/-- Heuristic value for "a" under the baseline environment. -/
lemma fb_base_a (s : St) :
    fallbackVolumeEstimate envBase "a" "US" s = (1300, { s with rng := s.rng + 1 }) := by
  refine fallback_plain_val envBase "a" s (13/10) 1300 (by decide) (by decide) (by decide)
    ?_ ?_ (by decide)
  · rw [show (("a" : String).length : ℚ) = 1 by norm_num [show ("a" : String).length = 1 from by decide]]
    rw [max_eq_right] <;> norm_num
  · rw [show envBase.jitters s.rng = 1 from rfl]
    exact truncQ_eq_cast _ 1300 (by norm_num)

/-- Heuristic value for "b" under the baseline environment. -/
lemma fb_base_b (s : St) :
    fallbackVolumeEstimate envBase "b" "US" s = (1300, { s with rng := s.rng + 1 }) := by
  refine fallback_plain_val envBase "b" s (13/10) 1300 (by decide) (by decide) (by decide)
    ?_ ?_ (by decide)
  · rw [show (("b" : String).length : ℚ) = 1 by norm_num [show ("b" : String).length = 1 from by decide]]
    rw [max_eq_right] <;> norm_num
  · rw [show envBase.jitters s.rng = 1 from rfl]
    exact truncQ_eq_cast _ 1300 (by norm_num)

/-- Heuristic value for the empty keyword under the baseline environment. -/
lemma fb_base_empty (s : St) :
    fallbackVolumeEstimate envBase "" "US" s = (1450, { s with rng := s.rng + 1 }) := by
  refine fallback_plain_val envBase "" s (29/20) 1450 (by decide) (by decide) (by decide)
    ?_ ?_ (by decide)
  · rw [show (("" : String).length : ℚ) = 0 by norm_num [show ("" : String).length = 0 from by decide]]
    rw [max_eq_right] <;> norm_num
  · rw [show envBase.jitters s.rng = 1 from rfl]
    exact truncQ_eq_cast _ 1450 (by norm_num)

/-- Heuristic values for "a" under `envC4`: first draw 0.7. -/
lemma fb_C4_0 :
    fallbackVolumeEstimate envC4 "a" "US" initSt = (910, ⟨[], true, 1⟩) := by
  have h : fallbackVolumeEstimate envC4 "a" "US" initSt =
      (910, { initSt with rng := initSt.rng + 1 }) := by
    refine fallback_plain_val envC4 "a" initSt (13/10) 910 (by decide) (by decide) (by decide)
      ?_ ?_ (by decide)
    · rw [show (("a" : String).length : ℚ) = 1 by
        norm_num [show ("a" : String).length = 1 from by decide]]
      rw [max_eq_right] <;> norm_num
    · rw [show envC4.jitters initSt.rng = 7/10 from rfl]
      exact truncQ_eq_cast _ 910 (by norm_num)
  exact h

/-- Heuristic values for "a" under `envC4`: second draw 1.3. -/
lemma fb_C4_1 :
    fallbackVolumeEstimate envC4 "a" "US" ⟨[], true, 1⟩ = (1690, ⟨[], true, 2⟩) := by
  have h : fallbackVolumeEstimate envC4 "a" "US" (⟨[], true, 1⟩ : St) =
      (1690, { (⟨[], true, 1⟩ : St) with rng := (⟨[], true, 1⟩ : St).rng + 1 }) := by
    refine fallback_plain_val envC4 "a" ⟨[], true, 1⟩ (13/10) 1690 (by decide) (by decide)
      (by decide) ?_ ?_ (by decide)
    · rw [show (("a" : String).length : ℚ) = 1 by
        norm_num [show ("a" : String).length = 1 from by decide]]
      rw [max_eq_right] <;> norm_num
    · rw [show envC4.jitters (⟨[], true, 1⟩ : St).rng = 13/10 from rfl]
      exact truncQ_eq_cast _ 1690 (by norm_num)
  exact h

/-- Heuristic value for "a" under `envC5`: first draw 1. -/
lemma fb_C5_0 :
    fallbackVolumeEstimate envC5 "a" "US" initSt = (1300, ⟨[], true, 1⟩) := by
  have h : fallbackVolumeEstimate envC5 "a" "US" initSt =
      (1300, { initSt with rng := initSt.rng + 1 }) := by
    refine fallback_plain_val envC5 "a" initSt (13/10) 1300 (by decide) (by decide) (by decide)
      ?_ ?_ (by decide)
    · rw [show (("a" : String).length : ℚ) = 1 by
        norm_num [show ("a" : String).length = 1 from by decide]]
      rw [max_eq_right] <;> norm_num
    · rw [show envC5.jitters initSt.rng = 1 from rfl]
      exact truncQ_eq_cast _ 1300 (by norm_num)
  exact h

/-- Heuristic value for "a" under `envC5`: second draw 1.2. -/
lemma fb_C5_1 :
    fallbackVolumeEstimate envC5 "a" "US" ⟨[], true, 1⟩ = (1560, ⟨[], true, 2⟩) := by
  have h : fallbackVolumeEstimate envC5 "a" "US" (⟨[], true, 1⟩ : St) =
      (1560, { (⟨[], true, 1⟩ : St) with rng := (⟨[], true, 1⟩ : St).rng + 1 }) := by
    refine fallback_plain_val envC5 "a" ⟨[], true, 1⟩ (13/10) 1560 (by decide) (by decide)
      (by decide) ?_ ?_ (by decide)
    · rw [show (("a" : String).length : ℚ) = 1 by
        norm_num [show ("a" : String).length = 1 from by decide]]
      rw [max_eq_right] <;> norm_num
    · rw [show envC5.jitters (⟨[], true, 1⟩ : St).rng = 6/5 from rfl]
      exact truncQ_eq_cast _ 1560 (by norm_num)
  exact h

/-- With both sources enabled but both remote calls failing, the combined
method on a cache miss averages the two heuristic fallback values that the
adapters return internally. -/
lemma combined_both_fail (env : Env) (t : ℤ) (kw country : String) (s : St)
    (hr : env.readFails = false) (hw : env.writeFails = false)
    (hgt : env.googleTrendsEnabled = true) (haa : env.amazonAutocompleteEnabled = true)
    (htr : env.trendsResp = .fail) (ham : env.amazonResp = none)
    (hmiss : lookupFresh s.store t kw country "combined" = none) :
    (getVolumeCombined env t kw country s).1 =
      .ok (truncQ ((((fallbackVolumeEstimate env kw country s).1 : ℚ) +
        ((fallbackVolumeEstimate env kw country
          (fallbackVolumeEstimate env kw country s).2).1 : ℚ)) / 2)) := by
  have h1 : getCachedVolume env t kw country "combined" s = .ok none := by
    simp [getCachedVolume, hr, hmiss]
  have hgt1 : getGoogleTrendsVolume env kw country s = fallbackVolumeEstimate env kw country s := by
    simp [getGoogleTrendsVolume, htr]
  have haa1 : getAmazonAutocompleteVolume env kw country
      (fallbackVolumeEstimate env kw country s).2 =
      fallbackVolumeEstimate env kw country (fallbackVolumeEstimate env kw country s).2 := by
    simp [getAmazonAutocompleteVolume, ham]
  simp only [getVolumeCombined, h1, hgt, haa, if_true, hgt1, haa1, cacheVolume, hw,
    Bool.false_eq_true, if_false]
  simp only [List.cons_append, List.nil_append, List.isEmpty_cons, Bool.false_eq_true,
    if_false, List.sum_cons, List.sum_nil, List.length_cons, List.length_nil, add_zero]
  congr 2
  push_cast
  ring

/-- With both sources disabled, the combined method on a cache miss falls
back to the heuristic estimator directly. -/
lemma combined_none_enabled (env : Env) (t : ℤ) (kw country : String) (s : St)
    (hr : env.readFails = false) (hw : env.writeFails = false)
    (hgt : env.googleTrendsEnabled = false) (haa : env.amazonAutocompleteEnabled = false)
    (hmiss : lookupFresh s.store t kw country "combined" = none) :
    (getVolumeCombined env t kw country s).1 =
      .ok (fallbackVolumeEstimate env kw country s).1 := by
  have h1 : getCachedVolume env t kw country "combined" s = .ok none := by
    simp [getCachedVolume, hr, hmiss]
  simp only [getVolumeCombined, h1, hgt, haa, Bool.false_eq_true, if_false,
    List.isEmpty_nil, if_true, cacheVolume, hw]

/-- The trend adapter on a usable response with at least one numeric
sample computes the truncated scaled mean. -/
lemma trends_formula (env : Env) (kw country : String) (s : St)
    (timeline : List (Option ℤ)) (hresp : env.trendsResp = .ok timeline)
    (hne : (timeline.filterMap id).isEmpty = false) :
    getGoogleTrendsVolume env kw country s =
      (truncQ ((((timeline.filterMap id).sum : ℚ) /
        ((timeline.filterMap id).length : ℚ)) * 1000), s) := by
  simp [getGoogleTrendsVolume, hresp, hne]

/-- The batch runner yields one entry per input keyword. -/
lemma batch_length (env : Env) (t : ℤ) (country m : String) (kws : List String) (s : St) :
    (get_batch_keyword_volume env t country m kws s).1.length = kws.length := by
  induction kws generalizing s with
  | nil => rfl
  | cons kw rest ih =>
    rcases h : get_keyword_volume env t (pyStrip kw) country m s with ⟨res, s1⟩
    cases res <;> simp [get_batch_keyword_volume, h, ih]

/-- The batch runner's entries carry the stripped input keywords in input
order. -/
lemma batch_map_keyword (env : Env) (t : ℤ) (country m : String) (kws : List String) (s : St) :
    (get_batch_keyword_volume env t country m kws s).1.map BatchEntry.keyword =
      kws.map pyStrip := by
  induction kws generalizing s with
  | nil => rfl
  | cons kw rest ih =>
    rcases h : get_keyword_volume env t (pyStrip kw) country m s with ⟨res, s1⟩
    cases res <;> simp [get_batch_keyword_volume, h, ih]

/-- Every batch entry carries the requested country, and an entry with an
error message records volume 0. -/
lemma batch_entries (env : Env) (t : ℤ) (country m : String) (kws : List String) (s : St) :
    ∀ e ∈ (get_batch_keyword_volume env t country m kws s).1,
      e.country = country ∧ (e.error = none ∨ (e.volume = 0 ∧ e.error.isSome = true)) := by
  induction kws generalizing s with
  | nil => intro e he; simp [get_batch_keyword_volume] at he
  | cons kw rest ih =>
    intro e he
    rcases h : get_keyword_volume env t (pyStrip kw) country m s with ⟨res, s1⟩
    cases res with
    | ok v =>
      simp only [get_batch_keyword_volume, h] at he
      rcases List.mem_cons.mp he with rfl | he
      · exact ⟨rfl, Or.inl rfl⟩
      · exact ih s1 e he
    | error err =>
      simp only [get_batch_keyword_volume, h] at he
      rcases List.mem_cons.mp he with rfl | he
      · exact ⟨rfl, Or.inr ⟨rfl, rfl⟩⟩
      · exact ih s1 e he

/-- A raised error for one keyword is recorded as a volume-0 entry with
the message, and the batch continues with the remaining keywords. -/
lemma batch_error_step (env : Env) (t : ℤ) (country m kw : String) (rest : List String)
    (s0 : St) (err : VolumeError) (s1 : St)
    (h : get_keyword_volume env t (pyStrip kw) country m s0 = (.error err, s1)) :
    (get_batch_keyword_volume env t country m (kw :: rest) s0).1 =
      ⟨pyStrip kw, country, 0, some (errMsg err)⟩ ::
        (get_batch_keyword_volume env t country m rest s1).1 := by
  simp [get_batch_keyword_volume, h]

end Lemmas


/-- Claim C1 (counterexample): with an unreadable store, `get_volume` for
("a", "US", "combined") surfaces a storage error to the caller instead of
recomputing; with an unwritable store it surfaces a storage error instead
of returning the computed value. -/
theorem C1_counterexample :
    (get_volume envReadFail 0 "a" "US" "combined" initSt).1 = .error .storage ∧
    (get_volume envWriteFail 0 "a" "US" "combined" initSt).1 = .error .storage :=
  ⟨rfl, rfl⟩

/-- Claim C1 (amended): for the cache-backed methods, a storage I/O failure
in the cache propagates out of `get_volume` as an error: an unreadable
store makes `get_volume` fail instead of degrading to a cache miss, and an
unwritable store makes `get_volume` fail after the miss instead of
returning the computed value. -/
theorem C1_theorem (env : Env) (t : ℤ) (kw country m : String) (s : St)
    (hc : country ∈ SUPPORTED_COUNTRIES)
    (hm : m = "google_trends" ∨ m = "amazon_autocomplete" ∨ m = "combined") :
    (env.readFails = true → get_volume env t kw country m s = (.error .storage, s)) ∧
    (env.readFails = false → env.writeFails = true →
      lookupFresh s.store t kw country m = none →
      ∃ s1, get_volume env t kw country m s = (.error .storage, s1)) := by
  rcases hm with rfl | rfl | rfl
  · exact ⟨fun hr => by rw [get_volume_gt_eq env t kw country s hc, gt_readFail env t kw country s hr],
      fun hr hw hmiss => by
        obtain ⟨s1, h⟩ := gt_writeFail env t kw country s hr hw hmiss
        exact ⟨s1, by rw [get_volume_gt_eq env t kw country s hc, h]⟩⟩
  · exact ⟨fun hr => by rw [get_volume_aa_eq env t kw country s hc, aa_readFail env t kw country s hr],
      fun hr hw hmiss => by
        obtain ⟨s1, h⟩ := aa_writeFail env t kw country s hr hw hmiss
        exact ⟨s1, by rw [get_volume_aa_eq env t kw country s hc, h]⟩⟩
  · exact ⟨fun hr => by rw [get_volume_combined_eq env t kw country s hc, combined_readFail env t kw country s hr],
      fun hr hw hmiss => by
        obtain ⟨s1, h⟩ := combined_writeFail env t kw country s hr hw hmiss
        exact ⟨s1, by rw [get_volume_combined_eq env t kw country s hc, h]⟩⟩

/-- Witness for C1: the read-failure clause at a concrete input. -/
theorem C1_witness :
    get_volume envReadFail 0 "a" "US" "combined" initSt = (.error .storage, initSt) :=
  (C1_theorem envReadFail 0 "a" "US" "combined" initSt (by decide)
    (Or.inr (Or.inr rfl))).1 rfl

/-- Claim C2 (counterexample): with a fresh cached row for the key
("a", "US", "fallback") holding 99999, `get_volume` with the `fallback`
method ignores the hit, recomputes 1300, and writes nothing back — the
`fallback` method never touches the cache. -/
theorem C2_counterexample :
    lookupFresh stC2.store 0 "a" "US" "fallback" = some 99999 ∧
    get_volume envBase 0 "a" "US" "fallback" stC2 =
      (.ok 1300, ⟨[⟨"a", "US", 99999, "fallback", 0⟩], true, 1⟩) ∧
    (1300 : ℤ) ≠ 99999 :=
  ⟨rfl,
   by rw [get_volume_fallback_eq envBase 0 "a" "US" stC2 (by decide), fb_base_a stC2]; rfl,
   by decide⟩

/-- Claim C2 (amended): for the methods `google_trends`,
`amazon_autocomplete` and `combined` (with healthy storage), `get_volume`
consults the cache first, returns immediately on a fresh hit, and on a
miss writes the computed result back under the same key before returning
it; the `fallback` method bypasses the cache entirely, always returning
the freshly computed heuristic value and leaving the store unchanged. -/
theorem C2_theorem (env : Env) (t : ℤ) (kw country m : String) (s : St)
    (hc : country ∈ SUPPORTED_COUNTRIES)
    (hm : m = "google_trends" ∨ m = "amazon_autocomplete" ∨ m = "combined")
    (hr : env.readFails = false) (hw : env.writeFails = false) :
    (∀ v, lookupFresh s.store t kw country m = some v →
      get_volume env t kw country m s = (.ok v, s)) ∧
    (lookupFresh s.store t kw country m = none →
      ∃ v s1, get_volume env t kw country m s = (.ok v, s1) ∧
        lookupFresh s1.store t kw country m = some v) ∧
    ((get_volume env t kw country "fallback" s).1 =
      .ok (fallbackVolumeEstimate env kw country s).1 ∧
      (get_volume env t kw country "fallback" s).2.store = s.store) := by
  refine ⟨?_, ?_, ?_⟩
  · intro v hhit
    rcases hm with rfl | rfl | rfl
    · rw [get_volume_gt_eq env t kw country s hc, gt_hit env t kw country s v hr hhit]
    · rw [get_volume_aa_eq env t kw country s hc, aa_hit env t kw country s v hr hhit]
    · rw [get_volume_combined_eq env t kw country s hc, combined_hit env t kw country s v hr hhit]
  · intro hmiss
    have hfresh : t - 24 < t := by omega
    rcases hm with rfl | rfl | rfl
    · obtain ⟨v, s1, heq, hlook⟩ := gt_miss env t kw country s hr hw hmiss
      exact ⟨v, s1, by rw [get_volume_gt_eq env t kw country s hc, heq], hlook t hfresh⟩
    · obtain ⟨v, s1, heq, hlook⟩ := aa_miss env t kw country s hr hw hmiss
      exact ⟨v, s1, by rw [get_volume_aa_eq env t kw country s hc, heq], hlook t hfresh⟩
    · obtain ⟨v, s1, heq, hlook⟩ := combined_miss env t kw country s hr hw hmiss
      exact ⟨v, s1, by rw [get_volume_combined_eq env t kw country s hc, heq], hlook t hfresh⟩
  · rw [get_volume_fallback_eq env t kw country s hc]
    exact ⟨rfl, rfl⟩

/-- Witness for C2: the amended claim at a concrete input. -/
theorem C2_witness :
    (∀ v, lookupFresh initSt.store 0 "a" "US" "combined" = some v →
      get_volume envBase 0 "a" "US" "combined" initSt = (.ok v, initSt)) ∧
    (lookupFresh initSt.store 0 "a" "US" "combined" = none →
      ∃ v s1, get_volume envBase 0 "a" "US" "combined" initSt = (.ok v, s1) ∧
        lookupFresh s1.store 0 "a" "US" "combined" = some v) ∧
    ((get_volume envBase 0 "a" "US" "fallback" initSt).1 =
      .ok (fallbackVolumeEstimate envBase "a" "US" initSt).1 ∧
      (get_volume envBase 0 "a" "US" "fallback" initSt).2.store = initSt.store) :=
  C2_theorem envBase 0 "a" "US" "combined" initSt (by decide)
    (Or.inr (Or.inr rfl)) rfl rfl

/-- Claim C3 (counterexample): the batch ["a", "", "  b  "] with country US
and method fallback produces three entries, for "a", "" and "b" — the
empty keyword is processed, not rejected: `get_volume` on the empty
keyword succeeds with 1450 instead of raising an invalid-input error. -/
theorem C3_counterexample :
    ((get_batch_keyword_volume envBase 0 "US" "fallback" ["a", "", "  b  "] initSt).1.map
      BatchEntry.keyword = ["a", "", "b"]) ∧
    (get_volume envBase 0 "" "US" "fallback" initSt).1 = .ok 1450 :=
  ⟨by decide,
   by rw [get_volume_fallback_eq envBase 0 "" "US" initSt (by decide), fb_base_empty initSt]⟩

/-- Claim C3 (amended): no empty-keyword validation exists: `get_volume`
with the `fallback` method succeeds on every keyword, including the empty
one, and the batch runner processes every input keyword after trimming —
one output entry per input keyword, in input order. -/
theorem C3_theorem (env : Env) (t : ℤ) (country m : String) (kws : List String) (s : St) :
    ((get_batch_keyword_volume env t country m kws s).1.map BatchEntry.keyword =
      kws.map pyStrip) ∧
    (country ∈ SUPPORTED_COUNTRIES →
      ∀ kw, (get_volume env t kw country "fallback" s).1 =
        .ok (fallbackVolumeEstimate env kw country s).1) := by
  constructor
  · induction kws generalizing s with
    | nil => rfl
    | cons kw rest ih =>
      rcases h : get_keyword_volume env t (pyStrip kw) country m s with ⟨res, s1⟩
      cases res <;> simp [get_batch_keyword_volume, h, ih]
  · intro hc kw
    rw [get_volume_fallback_eq env t kw country s hc]

/-- Witness for C3: the amended claim at the concrete batch of the spec. -/
theorem C3_witness :
    ((get_batch_keyword_volume envBase 0 "US" "fallback" ["a", "", "  b  "] initSt).1.map
      BatchEntry.keyword = ["a", "", "  b  "].map pyStrip) ∧
    ("US" ∈ SUPPORTED_COUNTRIES →
      ∀ kw, (get_volume envBase 0 kw "US" "fallback" initSt).1 =
        .ok (fallbackVolumeEstimate envBase kw "US" initSt).1) :=
  C3_theorem envBase 0 "US" "fallback" ["a", "", "  b  "] initSt

/-- Claim C4 (counterexample): under `envC4` (both sources enabled, both
remote calls failing, jitter draws 0.7 then 1.3) the combined method for
("a", "US") returns 1300, the truncated mean of the two internal fallback
values 910 and 1690, while the Heuristic Estimator's value at that point
is 910 — the failed sources are not omitted from the average. -/
theorem C4_counterexample :
    (get_volume envC4 0 "a" "US" "combined" initSt).1 = .ok 1300 ∧
    (fallbackVolumeEstimate envC4 "a" "US" initSt).1 = 910 ∧
    ((1300 : ℤ) ≠ 910) := by
  refine ⟨?_, by rw [fb_C4_0], by decide⟩
  rw [get_volume_combined_eq envC4 0 "a" "US" initSt (by decide)]
  rw [combined_both_fail envC4 0 "a" "US" initSt rfl rfl rfl rfl rfl rfl rfl]
  simp only [fb_C4_0, fb_C4_1]
  rw [truncQ_eq_cast _ 1300 (by push_cast; norm_num)]

/-- Claim C4 (amended): when both source adapters fail on their network
calls, each adapter internally returns its own heuristic fallback value
(never raising), so the combined method returns the truncated mean of
those two fallback draws — a failed source contributes a heuristic value
to the average rather than being omitted or contributing zero; only when
no source is enabled does combined return the Heuristic Estimator's value
directly. -/
theorem C4_theorem (env : Env) (t : ℤ) (kw country : String) (s : St)
    (hc : country ∈ SUPPORTED_COUNTRIES)
    (hr : env.readFails = false) (hw : env.writeFails = false)
    (htr : env.trendsResp = .fail) (ham : env.amazonResp = none)
    (hmiss : lookupFresh s.store t kw country "combined" = none) :
    (env.googleTrendsEnabled = true → env.amazonAutocompleteEnabled = true →
      (get_volume env t kw country "combined" s).1 =
        .ok (truncQ ((((fallbackVolumeEstimate env kw country s).1 : ℚ) +
          ((fallbackVolumeEstimate env kw country
            (fallbackVolumeEstimate env kw country s).2).1 : ℚ)) / 2))) ∧
    (env.googleTrendsEnabled = false → env.amazonAutocompleteEnabled = false →
      (get_volume env t kw country "combined" s).1 =
        .ok (fallbackVolumeEstimate env kw country s).1) := by
  constructor
  · intro hgt haa
    rw [get_volume_combined_eq env t kw country s hc]
    exact combined_both_fail env t kw country s hr hw hgt haa htr ham hmiss
  · intro hgt haa
    rw [get_volume_combined_eq env t kw country s hc]
    exact combined_none_enabled env t kw country s hr hw hgt haa hmiss

/-- Witness for C4: the amended claim at a concrete input. -/
theorem C4_witness :
    (envC4.googleTrendsEnabled = true → envC4.amazonAutocompleteEnabled = true →
      (get_volume envC4 0 "a" "US" "combined" initSt).1 =
        .ok (truncQ ((((fallbackVolumeEstimate envC4 "a" "US" initSt).1 : ℚ) +
          ((fallbackVolumeEstimate envC4 "a" "US"
            (fallbackVolumeEstimate envC4 "a" "US" initSt).2).1 : ℚ)) / 2))) ∧
    (envC4.googleTrendsEnabled = false → envC4.amazonAutocompleteEnabled = false →
      (get_volume envC4 0 "a" "US" "combined" initSt).1 =
        .ok (fallbackVolumeEstimate envC4 "a" "US" initSt).1) :=
  C4_theorem envC4 0 "a" "US" initSt (by decide) rfl rfl rfl rfl rfl

/-- Claim C5 (counterexample): with the `fallback` method, two calls for
("a", "US") one hour apart return 1300 and then 1560 — different values
within the 24-hour window, because the fallback method is uncached and
redraws the jitter. -/
theorem C5_counterexample :
    get_volume envC5 0 "a" "US" "fallback" initSt = (.ok 1300, ⟨[], true, 1⟩) ∧
    get_volume envC5 1 "a" "US" "fallback" ⟨[], true, 1⟩ = (.ok 1560, ⟨[], true, 2⟩) ∧
    ((1300 : ℤ) ≠ 1560) ∧ ((1 : ℤ) - 0 < 24) := by
  refine ⟨?_, ?_, by decide, by decide⟩
  · rw [get_volume_fallback_eq envC5 0 "a" "US" initSt (by decide), fb_C5_0]
  · rw [get_volume_fallback_eq envC5 1 "a" "US" ⟨[], true, 1⟩ (by decide), fb_C5_1]

/-- Claim C5 (amended): for the cache-backed methods (`google_trends`,
`amazon_autocomplete`, `combined`) with healthy storage, after a first
call that was a cache miss, a second identical call within the 24-hour
freshness window returns the identical value, served from the cache with
the state unchanged; the `fallback` method is uncached and may return a
different value. -/
theorem C5_theorem (env : Env) (t t' : ℤ) (kw country m : String) (s : St)
    (hm : m = "google_trends" ∨ m = "amazon_autocomplete" ∨ m = "combined")
    (hc : country ∈ SUPPORTED_COUNTRIES)
    (hr : env.readFails = false) (hw : env.writeFails = false)
    (hmiss : lookupFresh s.store t kw country m = none)
    (hfresh : t' - 24 < t) :
    ∃ v s1, get_volume env t kw country m s = (.ok v, s1) ∧
      get_volume env t' kw country m s1 = (.ok v, s1) := by
  rcases hm with rfl | rfl | rfl
  · obtain ⟨v, s1, heq, hlook⟩ := gt_miss env t kw country s hr hw hmiss
    exact ⟨v, s1, by rw [get_volume_gt_eq env t kw country s hc, heq],
      by rw [get_volume_gt_eq env t' kw country s1 hc,
        gt_hit env t' kw country s1 v hr (hlook t' hfresh)]⟩
  · obtain ⟨v, s1, heq, hlook⟩ := aa_miss env t kw country s hr hw hmiss
    exact ⟨v, s1, by rw [get_volume_aa_eq env t kw country s hc, heq],
      by rw [get_volume_aa_eq env t' kw country s1 hc,
        aa_hit env t' kw country s1 v hr (hlook t' hfresh)]⟩
  · obtain ⟨v, s1, heq, hlook⟩ := combined_miss env t kw country s hr hw hmiss
    exact ⟨v, s1, by rw [get_volume_combined_eq env t kw country s hc, heq],
      by rw [get_volume_combined_eq env t' kw country s1 hc,
        combined_hit env t' kw country s1 v hr (hlook t' hfresh)]⟩

/-- Witness for C5: the amended claim at a concrete input, one hour apart. -/
theorem C5_witness :
    ∃ v s1, get_volume envBase 0 "a" "US" "combined" initSt = (.ok v, s1) ∧
      get_volume envBase 1 "a" "US" "combined" s1 = (.ok v, s1) :=
  C5_theorem envBase 0 1 "a" "US" "combined" initSt (Or.inr (Or.inr rfl)) (by decide)
    rfl rfl rfl (by decide)

/-- Claim C6 (counterexample): for the sample list [2, 2, 1] the trend
adapter returns `int(mean * 1000)` = 1666 (truncation), while the claimed
`round(mean * 1000)` is 1667. -/
theorem C6_counterexample :
    (getGoogleTrendsVolume envTrends221 "a" "US" initSt).1 = 1666 ∧
    round ((((2 : ℚ) + 2 + 1) / 3) * 1000) = 1667 ∧
    ((1666 : ℤ) ≠ 1667) := by
  refine ⟨?_, ?_, by decide⟩
  · rw [trends_formula envTrends221 "a" "US" initSt [some 2, some 2, some 1] rfl (by decide)]
    rw [show ([some 2, some 2, some 1] : List (Option ℤ)).filterMap id = [2, 2, 1] from rfl]
    rw [show ([2, 2, 1] : List ℤ).sum = 5 from rfl,
      show ([2, 2, 1] : List ℤ).length = 3 from rfl]
    refine truncQ_nonneg_eq _ 1666 ?_ ?_ ?_ <;> push_cast <;> norm_num
  · rw [round_eq]
    exact Int.floor_eq_iff.mpr ⟨by norm_num, by norm_num⟩

/-- Claim C6 (amended): for every usable trend response with a non-empty
list of numeric samples, the adapter returns `int(mean(samples) * 1000)`
truncated toward zero (not rounded); for the sample list [1, 2, 3] the
value is 2000, where truncation and rounding agree. -/
theorem C6_theorem (env : Env) (kw country : String) (s : St)
    (timeline : List (Option ℤ)) (hresp : env.trendsResp = .ok timeline)
    (hne : (timeline.filterMap id).isEmpty = false) :
    getGoogleTrendsVolume env kw country s =
      (truncQ ((((timeline.filterMap id).sum : ℚ) /
        ((timeline.filterMap id).length : ℚ)) * 1000), s) ∧
    (timeline = [some 1, some 2, some 3] →
      (getGoogleTrendsVolume env kw country s).1 = 2000) := by
  refine ⟨trends_formula env kw country s timeline hresp hne, ?_⟩
  rintro rfl
  rw [trends_formula env kw country s _ hresp (by decide)]
  rw [show ([some 1, some 2, some 3] : List (Option ℤ)).filterMap id = [1, 2, 3] from rfl]
  rw [show ([1, 2, 3] : List ℤ).sum = 6 from rfl,
    show ([1, 2, 3] : List ℤ).length = 3 from rfl]
  exact truncQ_eq_cast _ 2000 (by push_cast; norm_num)

/-- Witness for C6: the amended claim on the sample list [1, 2, 3]. -/
theorem C6_witness :
    getGoogleTrendsVolume envTrends123 "a" "US" initSt =
      (truncQ ((((([some 1, some 2, some 3] : List (Option ℤ)).filterMap id).sum : ℚ) /
        ((([some 1, some 2, some 3] : List (Option ℤ)).filterMap id).length : ℚ)) * 1000),
       initSt) ∧
    (([some 1, some 2, some 3] : List (Option ℤ)) = [some 1, some 2, some 3] →
      (getGoogleTrendsVolume envTrends123 "a" "US" initSt).1 = 2000) :=
  C6_theorem envTrends123 "a" "US" initSt [some 1, some 2, some 3] rfl (by decide)

/-- Claim C7 (confirmed): when the autocomplete response's suggestion list
of size at most 10 contains an exact case-insensitive match of the
keyword, found by the scan at 0-based position i, the adapter returns
`round(10000 * (10 - i) / 10)` = 1000 * (10 - i); with no exact match or
an empty list it returns the heuristic fallback value instead. -/
theorem C7_theorem (env : Env) (kw country : String) (s : St)
    (suggestions : List String) (hresp : env.amazonResp = some suggestions)
    (hlen : suggestions.length ≤ 10) :
    (∀ i, suggestions.findIdx (fun sug => pyLower sug == pyLower kw) = i →
      i < suggestions.length →
      ((getAmazonAutocompleteVolume env kw country s).1 =
        round ((10000 : ℚ) * (10 - (i : ℚ)) / 10) ∧
       (getAmazonAutocompleteVolume env kw country s).1 = 1000 * (10 - (i : ℤ)))) ∧
    (suggestions.findIdx (fun sug => pyLower sug == pyLower kw) = suggestions.length →
      getAmazonAutocompleteVolume env kw country s =
        fallbackVolumeEstimate env kw country s) := by
  constructor
  · intro i hfind hlt
    cases suggestions with
    | nil => simp at hlt
    | cons a rest =>
      have hval : getAmazonAutocompleteVolume env kw country s =
          (truncQ (10000 * ((10 - (i : ℚ)) / 10)), s) := by
        simp only [getAmazonAutocompleteVolume, hresp, List.isEmpty_cons,
          Bool.false_eq_true, if_false, hfind, hlt, if_true]
      have key : (10000 : ℚ) * ((10 - (i : ℚ)) / 10) = ((1000 * (10 - (i : ℤ)) : ℤ) : ℚ) := by
        push_cast
        ring
      constructor
      · show (getAmazonAutocompleteVolume env kw country s).1 = _
        rw [hval]
        show truncQ (10000 * ((10 - (i : ℚ)) / 10)) = _
        rw [key, truncQ_intCast,
          show (10000 : ℚ) * (10 - (i : ℚ)) / 10 = ((1000 * (10 - (i : ℤ)) : ℤ) : ℚ) from by
            push_cast; ring,
          round_intCast]
      · rw [hval]
        show truncQ (10000 * ((10 - (i : ℚ)) / 10)) = _
        rw [key, truncQ_intCast]
  · intro hfind
    cases suggestions with
    | nil => simp [getAmazonAutocompleteVolume, hresp]
    | cons a rest =>
      simp only [getAmazonAutocompleteVolume, hresp, List.isEmpty_cons,
        Bool.false_eq_true, if_false, hfind]
      rw [if_neg (lt_irrefl _)]

/-- Witness for C7: keyword "B" matches suggestion "b" at position 1 of 2,
giving 1000 * (10 - 1) = 9000. -/
theorem C7_witness :
    (getAmazonAutocompleteVolume envAmazonXB "B" "US" initSt).1 = 1000 * (10 - (1 : ℤ)) :=
  ((C7_theorem envAmazonXB "B" "US" initSt ["x", "b"] rfl (by decide)).1 1
    (by decide) (by decide)).2

/-- Claim C8 (confirmed): the Heuristic Estimator always returns at least
10, for every keyword, country, jitter and state; consequently `get_volume`
with the `fallback` method returns a value of at least 10 for every
supported country. -/
theorem C8_theorem (env : Env) (t : ℤ) (kw country : String) (s : St) :
    10 ≤ (fallbackVolumeEstimate env kw country s).1 ∧
    (country ∈ SUPPORTED_COUNTRIES →
      ∃ v s1, get_volume env t kw country "fallback" s = (.ok v, s1) ∧ 10 ≤ v) := by
  have h10 : 10 ≤ (fallbackVolumeEstimate env kw country s).1 := le_max_right _ _
  exact ⟨h10, fun hc => ⟨_, _, get_volume_fallback_eq env t kw country s hc, h10⟩⟩

/-- Witness for C8: the bound at a concrete input. -/
theorem C8_witness :
    10 ≤ (fallbackVolumeEstimate envBase "a" "US" initSt).1 ∧
    ("US" ∈ SUPPORTED_COUNTRIES →
      ∃ v s1, get_volume envBase 0 "a" "US" "fallback" initSt = (.ok v, s1) ∧ 10 ≤ v) :=
  C8_theorem envBase 0 "a" "US" initSt

/-- Claim C9 (confirmed): the batch runner yields exactly one entry per
input keyword, in input order (each carrying the stripped keyword and the
requested country); an entry carrying an error message records volume 0;
and when the orchestrator raises an error for one keyword, that keyword's
entry records volume 0 with the error's message and the remaining
keywords are still processed. -/
theorem C9_theorem (env : Env) (t : ℤ) (country m : String) (kws : List String) (s : St) :
    ((get_batch_keyword_volume env t country m kws s).1.length = kws.length) ∧
    ((get_batch_keyword_volume env t country m kws s).1.map BatchEntry.keyword =
      kws.map pyStrip) ∧
    (∀ e ∈ (get_batch_keyword_volume env t country m kws s).1,
      e.country = country ∧ (e.error = none ∨ (e.volume = 0 ∧ e.error.isSome = true))) ∧
    (∀ (kw : String) (rest : List String) (s0 : St) (err : VolumeError) (s1 : St),
      get_keyword_volume env t (pyStrip kw) country m s0 = (.error err, s1) →
      (get_batch_keyword_volume env t country m (kw :: rest) s0).1 =
        ⟨pyStrip kw, country, 0, some (errMsg err)⟩ ::
          (get_batch_keyword_volume env t country m rest s1).1) :=
  ⟨batch_length env t country m kws s, batch_map_keyword env t country m kws s,
   batch_entries env t country m kws s,
   fun kw rest s0 err s1 h => batch_error_step env t country m kw rest s0 err s1 h⟩

/-- Witness for C9: a concrete batch whose method is unsupported, so every
keyword raises. -/
theorem C9_witness :
    ((get_batch_keyword_volume envBase 0 "US" "bogus" ["a", "b"] initSt).1.length =
      (["a", "b"] : List String).length) ∧
    ((get_batch_keyword_volume envBase 0 "US" "bogus" ["a", "b"] initSt).1.map
      BatchEntry.keyword = (["a", "b"] : List String).map pyStrip) ∧
    (∀ e ∈ (get_batch_keyword_volume envBase 0 "US" "bogus" ["a", "b"] initSt).1,
      e.country = "US" ∧ (e.error = none ∨ (e.volume = 0 ∧ e.error.isSome = true))) ∧
    (∀ (kw : String) (rest : List String) (s0 : St) (err : VolumeError) (s1 : St),
      get_keyword_volume envBase 0 (pyStrip kw) "US" "bogus" s0 = (.error err, s1) →
      (get_batch_keyword_volume envBase 0 "US" "bogus" (kw :: rest) s0).1 =
        ⟨pyStrip kw, "US", 0, some (errMsg err)⟩ ::
          (get_batch_keyword_volume envBase 0 "US" "bogus" rest s1).1) :=
  C9_theorem envBase 0 "US" "bogus" ["a", "b"] initSt

/-- Claim C10 (confirmed): `clear_cache` returns `False` and changes
nothing when the database file does not exist; when it exists it removes
the store, re-initializes it empty and returns `True`. -/
theorem C10_theorem (s : St) :
    (s.dbExists = false → clear_cache s = (false, s)) ∧
    (s.dbExists = true → clear_cache s = (true, { s with store := [], dbExists := true })) := by
  constructor <;> intro h <;> simp [clear_cache, h]

/-- Witness for C10: both branches at concrete states. -/
theorem C10_witness :
    clear_cache ⟨[], false, 0⟩ = (false, ⟨[], false, 0⟩) ∧
    clear_cache stC2 = (true, ⟨[], true, 0⟩) :=
  ⟨(C10_theorem ⟨[], false, 0⟩).1 rfl, (C10_theorem stC2).2 rfl⟩

end KeywordVolume
